import Mathlib

/- Shallow embedding of the NFC card-reader firmware (HermitX NFC-Cardreader-Module).

The embedding follows the FreeRTOS variant in
"examples/02-Basic with FreeRTOS/src/main.cpp" together with the constants of its
"include/config.h"; the single-loop variant in "examples/01-Basic functionality"
shares the same state functions (resetToIdle, errorState, the chaser and the ramp)
up to renaming.

FreeRTOS ticks are modeled in milliseconds: the firmware only ever converts time
with pdMS_TO_TICKS and portTICK_PERIOD_MS, so both collapse to the identity here.
Machine integers stay well inside their ranges in every state the theorems touch
(chaser indices in [0, 7], brightness in [2, 65], tick counts far below 2^32), so
Nat and Int are used directly; the int8_t chaser index and direction are rendered
as Int to keep the signed bounce arithmetic faithful. -/

namespace NFCReader

/-- config.h: number of pixels on the strip (NUM_LEDS). -/
def NUM_LEDS : Nat := 8

/-- config.h: minimum ramp brightness (MIN_BRIGHTNESS). -/
def MIN_BRIGHTNESS : Nat := 2

/-- config.h: maximum brightness (MAX_BRIGHTNESS). -/
def MAX_BRIGHTNESS : Nat := 65

/-- config.h: the ReaderState enum. -/
inductive ReaderState where
  | STATE_IDLE
  | STATE_CARD_DETECTED
  | STATE_SUCCESS
  | STATE_ERROR
deriving DecidableEq, Repr

/-- FastLED CRGB pixel (one 8-bit channel per color, kept as Nat). -/
structure CRGB where
  r : Nat
  g : Nat
  b : Nat
deriving DecidableEq, Repr

/-- FastLED CRGB::Black. -/
def CRGB.Black : CRGB := ⟨0, 0, 0⟩

/-- FastLED CRGB::Red. -/
def CRGB.Red : CRGB := ⟨255, 0, 0⟩

/-- FastLED CRGB::Green. -/
def CRGB.Green : CRGB := ⟨0, 255, 0⟩

/-- FastLED CRGB::Blue. -/
def CRGB.Blue : CRGB := ⟨0, 0, 255⟩

/-- FastLED CRGB::Yellow. -/
def CRGB.Yellow : CRGB := ⟨255, 255, 0⟩

/-- FastLED lib8tion scale8 with FASTLED_SCALE8_FIXED: (i * (1 + s)) >> 8. -/
def scale8 (i s : Nat) : Nat := i * (1 + s) / 256

/-- FastLED CRGB::nscale8: scale every channel. -/
def CRGB.nscale8 (c : CRGB) (s : Nat) : CRGB := ⟨scale8 c.r s, scale8 c.g s, scale8 c.b s⟩

/-- FastLED fill_solid over the whole strip. -/
def fill_solid (n : Nat) (c : CRGB) : List CRGB := List.replicate n c

/-- main.cpp: ms between chaser steps (CHASER_INTERVAL_MS). -/
def CHASER_INTERVAL_MS : Nat := 120

/-- main.cpp: chaser color (CHASER_COLOR = CRGB::Blue). -/
def CHASER_COLOR : CRGB := CRGB.Blue

/-- main.cpp: brightness scale for inactive chaser pixels (CHASER_DIM). -/
def CHASER_DIM : Nat := 22

/-- main.cpp, runYellowRamp: fixed ramp duration in ms (RAMP_MS). -/
def RAMP_MS : Nat := 2000

/-- main.cpp: target listening volume (targetVol). -/
def targetVol : Nat := 21

/-- The mutable globals owned by TaskLEDState: the volatile state enum, the
state-entry tick (stateStartTick), the FastLED master brightness, the pixel
buffer leds[NUM_LEDS], the chaser position and direction (int8_t), and the
static lastStepTick of runChaserStep. -/
structure LedState where
  state : ReaderState
  stateStartTick : Nat
  brightness : Nat
  leds : List CRGB
  chaserIndex : Int
  chaserDir : Int
  lastStepTick : Nat
deriving DecidableEq, Repr

/-- The task-notification bits drained by TaskLEDState in one tick:
EVT_CARD_DETECTED (bit 0) and EVT_AUDIO_DONE (bit 2). -/
structure Notif where
  cardDetected : Bool
  audioDone : Bool
deriving DecidableEq, Repr

/-- main.cpp setAllLeds: fill_solid over the whole strip, then FastLED.show(). -/
def setAllLeds (s : LedState) (c : CRGB) : LedState :=
  { s with leds := fill_solid NUM_LEDS c }

/-- main.cpp changeState: assign the state enum and stamp stateStartTick with
xTaskGetTickCount(). -/
def changeState (s : LedState) (newState : ReaderState) (now : Nat) : LedState :=
  { s with state := newState, stateStartTick := now }

/-- main.cpp resetToIdle: brightness to MAX_BRIGHTNESS, strip to black, chaser
index and direction to (0, 1), then changeState(STATE_IDLE). -/
def resetToIdle (s : LedState) (now : Nat) : LedState :=
  let s1 := { s with brightness := MAX_BRIGHTNESS }
  let s2 := setAllLeds s1 CRGB.Black
  let s3 := { s2 with chaserIndex := 0, chaserDir := 1 }
  changeState s3 ReaderState.STATE_IDLE now

/-- main.cpp errorState: brightness to MAX_BRIGHTNESS, strip to red, then
changeState(STATE_ERROR). -/
def errorState (s : LedState) (now : Nat) : LedState :=
  let s1 := { s with brightness := MAX_BRIGHTNESS }
  let s2 := setAllLeds s1 CRGB.Red
  changeState s2 ReaderState.STATE_ERROR now

/-- main.cpp transitionToSuccess: show green at MAX_BRIGHTNESS; if the SD mount
failed at boot (sdOk false), vTaskDelay(250 ms) then resetToIdle without ever
touching the audio task; otherwise xTaskNotify(taskAudioHandle, EVT_PLAY_SUCCESS)
and changeState(STATE_SUCCESS).  The Bool in the result records whether the
play-request notification was sent. -/
def transitionToSuccess (sdOk : Bool) (s : LedState) (now : Nat) : LedState × Bool :=
  let s1 := { s with brightness := MAX_BRIGHTNESS }
  let s2 := setAllLeds s1 CRGB.Green
  if !sdOk then
    (resetToIdle s2 (now + 250), false)
  else
    (changeState s2 ReaderState.STATE_SUCCESS now, true)

/-- main.cpp runChaserStep: every CHASER_INTERVAL_MS, paint the strip in the
dimmed chaser color, light leds[chaserIndex] at full color, advance the index by
the direction, and invert the direction once the advanced index is >= NUM_LEDS-1
or <= 0.  (leds[chaserIndex] is an int8_t array subscript; reachable states keep
it in [0, NUM_LEDS-1], see the chaser invariant below.) -/
def runChaserStep (s : LedState) (now : Nat) : LedState :=
  if now - s.lastStepTick ≥ CHASER_INTERVAL_MS then
    let dimColor := CRGB.nscale8 CHASER_COLOR CHASER_DIM
    let s1 := setAllLeds s dimColor
    let s2 := { s1 with leds := s1.leds.set s1.chaserIndex.toNat CHASER_COLOR }
    let i2 := s2.chaserIndex + s2.chaserDir
    let d2 := if i2 ≥ (NUM_LEDS : Int) - 1 ∨ i2 ≤ 0 then -s2.chaserDir else s2.chaserDir
    { s2 with chaserIndex := i2, chaserDir := d2, lastStepTick := now }
  else
    s

/-- Arduino map() restricted to the nonnegative long arguments the firmware uses;
C long division on nonnegative values is Nat division. -/
def arduinoMap (x inMin inMax outMin outMax : Nat) : Nat :=
  (x - inMin) * (outMax - outMin) / (inMax - inMin) + outMin

/-- main.cpp runYellowRamp: while the elapsed time since state entry is at most
RAMP_MS, show yellow at map(elapsed, 0, RAMP_MS, MIN_BRIGHTNESS, MAX_BRIGHTNESS);
afterwards set MAX_BRIGHTNESS and call transitionToSuccess. -/
def runYellowRamp (sdOk : Bool) (s : LedState) (now : Nat) : LedState × Bool :=
  let elapsedMs := now - s.stateStartTick
  if elapsedMs ≤ RAMP_MS then
    (setAllLeds { s with brightness := arduinoMap elapsedMs 0 RAMP_MS MIN_BRIGHTNESS MAX_BRIGHTNESS }
        CRGB.Yellow, false)
  else
    transitionToSuccess sdOk { s with brightness := MAX_BRIGHTNESS } now

/-- TaskLEDState, flag-drain phase: xTaskNotifyWait clears and returns the
pending bits; EVT_CARD_DETECTED unconditionally calls
changeState(STATE_CARD_DETECTED), then EVT_AUDIO_DONE unconditionally calls
resetToIdle, in that source order. -/
def drainNotif (notif : Notif) (s : LedState) (now : Nat) : LedState :=
  let s1 := if notif.cardDetected then changeState s ReaderState.STATE_CARD_DETECTED now else s
  if notif.audioDone then resetToIdle s1 now else s1

/-- One body of the TaskLEDState loop: drain the pending notification bits, then
run the switch on the current state (Idle renders the chaser, CardDetected runs
the ramp, Success and Error do nothing).  The Bool result records whether an
EVT_PLAY_SUCCESS notification was sent to the audio task during this tick. -/
def ledTick (sdOk : Bool) (notif : Notif) (now : Nat) (s : LedState) : LedState × Bool :=
  let s1 := drainNotif notif s now
  match s1.state with
  | ReaderState.STATE_IDLE => (runChaserStep s1 now, false)
  | ReaderState.STATE_CARD_DETECTED => runYellowRamp sdOk s1 now
  | ReaderState.STATE_SUCCESS => (s1, false)
  | ReaderState.STATE_ERROR => (s1, false)

/-- Iterated LED-task ticks: at step n the environment supplies the drained
notification bits and the current tick count. -/
def ledRun (sdOk : Bool) (inputs : Nat → Notif × Nat) (s : LedState) : Nat → LedState
  | 0 => s
  | n + 1 => (ledTick sdOk (inputs n).1 (inputs n).2 (ledRun sdOk inputs s n)).1

/-- The LED-side globals right after the static initializers and the LED block of
setup(): state STATE_IDLE, stateStartTick 0, brightness MAX_BRIGHTNESS, strip
black, chaser at (0, 1), lastStepTick 0. -/
def initLedState : LedState :=
  { state := ReaderState.STATE_IDLE
    stateStartTick := 0
    brightness := MAX_BRIGHTNESS
    leds := fill_solid NUM_LEDS CRGB.Black
    chaserIndex := 0
    chaserDir := 1
    lastStepTick := 0 }

/-- The state-relevant tail of setup(): if nfc.getFirmwareVersion() returned 0,
errorState() is called, otherwise the state is left as initialized. -/
def setupPhase (version : Nat) (now : Nat) : LedState :=
  if version = 0 then errorState initLedState now else initLedState

/-- The first statement of TaskLEDState, executed before its loop:
changeState(STATE_IDLE) -- unconditionally, even when setup() just entered
STATE_ERROR.  (The single-loop variant ends setup() with the same
changeState(STATE_IDLE) after a possible errorState().) -/
def ledTaskStart (s : LedState) (now : Nat) : LedState :=
  changeState s ReaderState.STATE_IDLE now

/-- Boot of the FreeRTOS variant as seen by the LED task: setup() followed by the
entry statement of TaskLEDState. -/
def bootState (version t0 t1 : Nat) : LedState :=
  ledTaskStart (setupPhase version t0) t1

/-- One body of the TaskNFC loop, abstracted over the observed state and the
result of nfc.readPassiveTargetID: poll (timeout 50 ms) only when the observed
state is STATE_IDLE; on success notify EVT_CARD_DETECTED and sleep 300 ms
(debounce), on failure sleep 40 ms; outside Idle do not poll and sleep 80 ms. -/
structure NfcStep where
  didPoll : Bool
  pollTimeoutMs : Nat
  raisedCardDetected : Bool
  sleepMs : Nat
deriving DecidableEq, Repr

/-- TaskNFC loop body (see NfcStep). -/
def nfcIteration (observedState : ReaderState) (pollSuccess : Bool) : NfcStep :=
  if observedState = ReaderState.STATE_IDLE then
    if pollSuccess then
      { didPoll := true, pollTimeoutMs := 50, raisedCardDetected := true, sleepMs := 300 }
    else
      { didPoll := true, pollTimeoutMs := 50, raisedCardDetected := false, sleepMs := 40 }
  else
    { didPoll := false, pollTimeoutMs := 0, raisedCardDetected := false, sleepMs := 80 }

/-- The mutable state of TaskAudio: the previous-iteration running flag
(wasRunning) and the current volume. -/
structure AudioState where
  wasRunning : Bool
  volume : Nat
deriving DecidableEq, Repr

/-- One body of the TaskAudio loop.  playReq is the drained EVT_PLAY_SUCCESS bit.
runningAfterConnect is the audio.isRunning() value read 20 ms after
audio.connecttoFS (only consulted when playReq is set): when false the task
restores targetVol and raises EVT_AUDIO_DONE immediately; when true it ramps the
volume 0..targetVol.  runningAtCheck is the audio.isRunning() value read at the
end-of-playback edge detector: a true-to-false edge of wasRunning raises
EVT_AUDIO_DONE.  The audio.loop() pump guard at the top of the body reads
isRunning too but changes none of the modeled state.  The Nat result counts the
EVT_AUDIO_DONE notifications sent during this body. -/
def audioIteration (playReq runningAfterConnect runningAtCheck : Bool) (a : AudioState) :
    AudioState × Nat :=
  let a1 := if playReq then { a with volume := targetVol } else a
  let immediateDone := playReq && !runningAfterConnect
  let edgeDone := a1.wasRunning && !runningAtCheck
  ({ a1 with wasRunning := runningAtCheck },
    (if immediateDone then 1 else 0) + (if edgeDone then 1 else 0))

/-- Iterated TaskAudio bodies: at iteration n the environment supplies the
drained play-request bit and the two isRunning readings of that body; the Nat
component accumulates the EVT_AUDIO_DONE notifications sent so far. -/
def audioRun (req r1 r2 : Nat → Bool) (a : AudioState) : Nat → AudioState × Nat
  | 0 => (a, 0)
  | n + 1 =>
    let p := audioRun req r1 r2 a n
    let q := audioIteration (req n) (r1 n) (r2 n) p.1
    (q.1, p.2 + q.2)

/-- The inductive invariant of the chaser animation state: the index lies on the
strip, the direction is one of the two int8_t values 1 and -1 the firmware
assigns, and at each end of the bounce the direction already points inward. -/
def ChaserInv (s : LedState) : Prop :=
  0 ≤ s.chaserIndex ∧ s.chaserIndex ≤ (NUM_LEDS : Int) - 1 ∧
    (s.chaserDir = 1 ∨ s.chaserDir = -1) ∧
    (s.chaserIndex = (NUM_LEDS : Int) - 1 → s.chaserDir = -1) ∧
    (s.chaserIndex = 0 → s.chaserDir = 1)

/-- Brightness applied by runYellowRamp as a function of the elapsed time since
state entry (spec notion used to compare with the code). -/
def rampBrightness (elapsedMs : Nat) : Nat :=
  if elapsedMs ≤ RAMP_MS then
    arduinoMap elapsedMs 0 RAMP_MS MIN_BRIGHTNESS MAX_BRIGHTNESS
  else
    MAX_BRIGHTNESS

/-- A concrete environment that drives the LED task from boot into
STATE_SUCCESS in two ticks (card flag at tick count 10, then a tick at 2500
after the 2000 ms ramp has elapsed). -/
def reachSuccessInputs : Nat → Notif × Nat :=
  fun i =>
    if i = 0 then ({ cardDetected := true, audioDone := false }, 10)
    else ({ cardDetected := false, audioDone := false }, 2500)

/-- The concrete reachable state in STATE_SUCCESS produced by
reachSuccessInputs from boot with the SD mounted. -/
def reachedSuccessState : LedState :=
  ledRun true reachSuccessInputs (bootState 1 0 0) 2

/-! ## Helper lemmas -/

/-- runChaserStep never changes the state enum. -/
lemma runChaserStep_state (s : LedState) (now : Nat) :
    (runChaserStep s now).state = s.state := by
  unfold runChaserStep
  split <;> rfl

/-- Draining leaves the state Idle, CardDetected, or untouched. -/
lemma drainNotif_state_cases (notif : Notif) (s : LedState) (now : Nat) :
    (drainNotif notif s now).state = ReaderState.STATE_IDLE ∨
      (drainNotif notif s now).state = ReaderState.STATE_CARD_DETECTED ∨
      (drainNotif notif s now).state = s.state := by
  obtain ⟨c, d⟩ := notif
  cases c <;> cases d
  · exact Or.inr (Or.inr rfl)
  · exact Or.inl rfl
  · exact Or.inr (Or.inl rfl)
  · exact Or.inl rfl

/-- Within the ramp window, runYellowRamp only repaints the strip. -/
lemma runYellowRamp_of_le (sdOk : Bool) (s : LedState) (now : Nat)
    (h : now - s.stateStartTick ≤ RAMP_MS) :
    runYellowRamp sdOk s now =
      (setAllLeds
        { s with brightness :=
            arduinoMap (now - s.stateStartTick) 0 RAMP_MS MIN_BRIGHTNESS MAX_BRIGHTNESS }
        CRGB.Yellow, false) := by
  simp only [runYellowRamp]
  rw [if_pos h]

/-- Past the ramp window, runYellowRamp hands over to transitionToSuccess. -/
lemma runYellowRamp_of_gt (sdOk : Bool) (s : LedState) (now : Nat)
    (h : RAMP_MS < now - s.stateStartTick) :
    runYellowRamp sdOk s now =
      transitionToSuccess sdOk { s with brightness := MAX_BRIGHTNESS } now := by
  simp only [runYellowRamp]
  rw [if_neg (Nat.not_le.mpr h)]

/-- With the SD unavailable, the ramp leaves the state alone or resets to Idle. -/
lemma runYellowRamp_false_state (s : LedState) (now : Nat) :
    ((runYellowRamp false s now).1).state = s.state ∨
      ((runYellowRamp false s now).1).state = ReaderState.STATE_IDLE := by
  by_cases hle : now - s.stateStartTick ≤ RAMP_MS
  · rw [runYellowRamp_of_le false s now hle]
    exact Or.inl rfl
  · rw [runYellowRamp_of_gt false s now (Nat.not_le.mp hle)]
    exact Or.inr rfl

/-- With the SD unavailable, no tick can move the machine into STATE_SUCCESS. -/
lemma ledTick_not_success (notif : Notif) (now : Nat) (s : LedState)
    (h : s.state ≠ ReaderState.STATE_SUCCESS) :
    ((ledTick false notif now s).1).state ≠ ReaderState.STATE_SUCCESS := by
  have hd := drainNotif_state_cases notif s now
  simp only [ledTick]
  split <;> rename_i heq <;> (try dsimp only)
  · rw [runChaserStep_state, heq]
    decide
  · rcases runYellowRamp_false_state (drainNotif notif s now) now with hr | hr
    · rw [hr, heq]
      decide
    · rw [hr]
      decide
  · rcases hd with hd | hd | hd
    · rw [hd] at heq
      exact absurd heq (by decide)
    · rw [hd] at heq
      exact absurd heq (by decide)
    · rw [hd] at heq
      exact absurd heq h
  · rw [heq]
    decide

/-- With the SD unavailable, every run from a non-Success state avoids
STATE_SUCCESS forever. -/
lemma ledRun_not_success (inputs : Nat → Notif × Nat) (s : LedState)
    (h : s.state ≠ ReaderState.STATE_SUCCESS) :
    ∀ n, (ledRun false inputs s n).state ≠ ReaderState.STATE_SUCCESS
  | 0 => h
  | n + 1 => ledTick_not_success _ _ _ (ledRun_not_success inputs s h n)

/-- Unfolding equation for one more audio iteration. -/
lemma audioRun_succ (req r1 r2 : Nat → Bool) (a : AudioState) (n : Nat) :
    audioRun req r1 r2 a (n + 1) =
      ((audioIteration (req n) (r1 n) (r2 n) (audioRun req r1 r2 a n).1).1,
        (audioRun req r1 r2 a n).2 +
          (audioIteration (req n) (r1 n) (r2 n) (audioRun req r1 r2 a n).1).2) := rfl

/-- Without play requests and with the decoder idle, the audio task is a no-op. -/
lemma audioRun_no_request (r1 : Nat → Bool) (vol : Nat) : ∀ n : Nat,
    audioRun (fun _ => false) r1 (fun _ => false) { wasRunning := false, volume := vol } n =
      ({ wasRunning := false, volume := vol }, 0)
  | 0 => rfl
  | n + 1 => by
    rw [audioRun_succ, audioRun_no_request r1 vol n]
    rfl

/-- After the request iteration of the short-lived-playback trace, the audio
task sits at wasRunning false with targetVol and has raised no done flag. -/
lemma audioRun_short_playback (vol : Nat) : ∀ k : Nat,
    audioRun (fun i => decide (i = 0)) (fun i => decide (i = 0)) (fun _ => false)
        { wasRunning := false, volume := vol } (k + 1) =
      ({ wasRunning := false, volume := targetVol }, 0)
  | 0 => rfl
  | k + 1 => by
    rw [audioRun_succ, audioRun_short_playback vol k]
    rfl

/-- The chaser invariant survives one runChaserStep. -/
lemma chaserInv_runChaserStep (s : LedState) (now : Nat) (h : ChaserInv s) :
    ChaserInv (runChaserStep s now) := by
  obtain ⟨h0, h1, hd, h7, hz⟩ := h
  have h7d : ¬s.chaserIndex = (NUM_LEDS : Int) - 1 ∨ s.chaserDir = -1 := by
    by_cases hc : s.chaserIndex = (NUM_LEDS : Int) - 1
    · exact Or.inr (h7 hc)
    · exact Or.inl hc
  have hzd : ¬s.chaserIndex = 0 ∨ s.chaserDir = 1 := by
    by_cases hc : s.chaserIndex = 0
    · exact Or.inr (hz hc)
    · exact Or.inl hc
  simp only [runChaserStep]
  split
  · simp only [ChaserInv, setAllLeds, NUM_LEDS] at h0 h1 h7d hzd ⊢
    split <;>
      refine ⟨?_, ?_, ?_, ?_, ?_⟩ <;>
      (try intro hcc) <;>
      omega
  · exact ⟨h0, h1, hd, h7, hz⟩

/-- Any state whose chaser fields are the reset values (0, 1) satisfies the
chaser invariant. -/
lemma chaserInv_of_fields (s : LedState) (hi : s.chaserIndex = 0) (hd : s.chaserDir = 1) :
    ChaserInv s := by
  refine ⟨?_, ?_, ?_, ?_, ?_⟩
  · rw [hi]
  · rw [hi]
    decide
  · exact Or.inl hd
  · intro hc
    rw [hi] at hc
    exact absurd hc (by decide)
  · intro hc
    exact hd

/-- resetToIdle restores the chaser invariant. -/
lemma chaserInv_resetToIdle (s : LedState) (now : Nat) :
    ChaserInv (resetToIdle s now) :=
  chaserInv_of_fields _ rfl rfl

/-- Draining flags preserves the chaser invariant. -/
lemma chaserInv_drainNotif (notif : Notif) (s : LedState) (now : Nat) (h : ChaserInv s) :
    ChaserInv (drainNotif notif s now) := by
  obtain ⟨c, d⟩ := notif
  cases c <;> cases d
  · exact h
  · exact chaserInv_resetToIdle _ _
  · exact h
  · exact chaserInv_resetToIdle _ _

/-- The ramp preserves the chaser invariant. -/
lemma chaserInv_runYellowRamp (sdOk : Bool) (s : LedState) (now : Nat) (h : ChaserInv s) :
    ChaserInv ((runYellowRamp sdOk s now).1) := by
  by_cases hle : now - s.stateStartTick ≤ RAMP_MS
  · rw [runYellowRamp_of_le sdOk s now hle]
    exact h
  · rw [runYellowRamp_of_gt sdOk s now (Nat.not_le.mp hle)]
    cases sdOk
    · exact chaserInv_resetToIdle _ _
    · exact h

/-- One full LED-task tick preserves the chaser invariant. -/
lemma chaserInv_ledTick (sdOk : Bool) (notif : Notif) (now : Nat) (s : LedState)
    (h : ChaserInv s) : ChaserInv ((ledTick sdOk notif now s).1) := by
  have hdrain := chaserInv_drainNotif notif s now h
  simp only [ledTick]
  split <;> (try dsimp only)
  · exact chaserInv_runChaserStep _ _ hdrain
  · exact chaserInv_runYellowRamp _ _ _ hdrain
  · exact hdrain
  · exact hdrain

/-- The boot state satisfies the chaser invariant. -/
lemma chaserInv_boot (version t0 t1 : Nat) : ChaserInv (bootState version t0 t1) := by
  unfold bootState setupPhase
  split
  · exact chaserInv_of_fields _ rfl rfl
  · exact chaserInv_of_fields _ rfl rfl

/-- Every state reachable from boot satisfies the chaser invariant. -/
lemma chaserInv_ledRun (sdOk : Bool) (inputs : Nat → Notif × Nat) (s : LedState)
    (h : ChaserInv s) : ∀ n, ChaserInv (ledRun sdOk inputs s n)
  | 0 => h
  | n + 1 => chaserInv_ledTick _ _ _ _ (chaserInv_ledRun sdOk inputs s h n)

/-- When a chaser step executes, the direction flips exactly on the boundary
condition the source tests: advanced index at least NUM_LEDS-1, or at most 0. -/
lemma chaser_reflection (s : LedState) (now : Nat) (h : ChaserInv s)
    (hstep : CHASER_INTERVAL_MS ≤ now - s.lastStepTick) :
    ((runChaserStep s now).chaserDir = -s.chaserDir ↔
      ((NUM_LEDS : Int) - 1 ≤ s.chaserIndex + s.chaserDir ∨
        s.chaserIndex + s.chaserDir ≤ 0)) := by
  obtain ⟨h0, h1, hd, h7, hz⟩ := h
  have hdne : ¬s.chaserDir = -s.chaserDir := by
    rcases hd with hd | hd <;> rw [hd] <;> decide
  simp only [runChaserStep]
  rw [if_pos (show now - s.lastStepTick ≥ CHASER_INTERVAL_MS from hstep)]
  simp only [setAllLeds]
  split
  · rename_i hcond
    exact iff_of_true rfl hcond
  · rename_i hcond
    exact iff_of_false hdne hcond

/-- The applied ramp brightness is a non-decreasing function of elapsed time. -/
lemma rampBrightness_mono : Monotone rampBrightness := by
  intro a b hab
  unfold rampBrightness arduinoMap RAMP_MS MIN_BRIGHTNESS MAX_BRIGHTNESS
  split <;> split <;> omega

/-- Inside the window the ramp brightness is the integer linear interpolation
from MIN_BRIGHTNESS to MAX_BRIGHTNESS. -/
lemma rampBrightness_of_le (e : Nat) (h : e ≤ RAMP_MS) :
    rampBrightness e = MIN_BRIGHTNESS + e * (MAX_BRIGHTNESS - MIN_BRIGHTNESS) / RAMP_MS := by
  unfold rampBrightness arduinoMap
  rw [if_pos h]
  unfold RAMP_MS MIN_BRIGHTNESS MAX_BRIGHTNESS
  omega

/-- From the window duration on, the ramp brightness is MAX_BRIGHTNESS. -/
lemma rampBrightness_of_ge (e : Nat) (h : RAMP_MS ≤ e) :
    rampBrightness e = MAX_BRIGHTNESS := by
  unfold rampBrightness arduinoMap
  split
  · unfold RAMP_MS MIN_BRIGHTNESS MAX_BRIGHTNESS at *
    omega
  · rfl

/-- The brightness field written by runYellowRamp is rampBrightness of the
elapsed time. -/
lemma runYellowRamp_brightness (sdOk : Bool) (s : LedState) (now : Nat) :
    ((runYellowRamp sdOk s now).1).brightness = rampBrightness (now - s.stateStartTick) := by
  by_cases hle : now - s.stateStartTick ≤ RAMP_MS
  · rw [runYellowRamp_of_le sdOk s now hle]
    unfold rampBrightness
    rw [if_pos hle]
    rfl
  · rw [runYellowRamp_of_gt sdOk s now (Nat.not_le.mp hle)]
    unfold rampBrightness
    rw [if_neg hle]
    cases sdOk <;> rfl

/-! ## Claim theorems -/

/-- C1: the claim says that once Error is entered the state stays Error until
an external reset.  The code disagrees at the failing boot input version = 0
(PN532 absent): setup() enters STATE_ERROR, but the first statement of
TaskLEDState immediately performs changeState(STATE_IDLE), leaving Error with
no external reset; moreover a drained PlaybackDone flag in Error also resets
the machine to Idle, because flag handling is not gated on the state. -/
theorem c1_error_state_exited_at_boot :
    (setupPhase 0 0).state = ReaderState.STATE_ERROR ∧
    (ledTaskStart (setupPhase 0 0) 0).state = ReaderState.STATE_IDLE ∧
    ((ledTick true { cardDetected := false, audioDone := true } 5
        (setupPhase 0 0)).1).state = ReaderState.STATE_IDLE := by
  decide

/-- C2, counterexample: the claim says a CardDetected flag drained outside Idle
causes no transition.  In the reachable Success state below (SD mounted, boot,
card flag, ramp elapsed), draining a CardDetected flag moves the machine to
STATE_CARD_DETECTED. -/
theorem c2_drain_card_in_success_transitions :
    reachedSuccessState.state = ReaderState.STATE_SUCCESS ∧
    ((ledTick true { cardDetected := true, audioDone := false } 2600
        reachedSuccessState).1).state = ReaderState.STATE_CARD_DETECTED := by
  decide

/-- C2, amended: a drained CardDetected flag (without a simultaneous
PlaybackDone) is applied unconditionally: whatever the current state, the tick
ends in STATE_CARD_DETECTED with the state-entry timestamp reset to the current
tick count — a transition when the state was Success or Error, and a ramp
restart when it was already CardDetected.  Re-entrant detection is prevented
only on the producer side, where TaskNFC polls solely while it observes Idle. -/
theorem c2_drain_card_unconditional (sdOk : Bool) (s : LedState) (now : Nat) :
    ((ledTick sdOk { cardDetected := true, audioDone := false } now s).1).state =
      ReaderState.STATE_CARD_DETECTED ∧
    ((ledTick sdOk { cardDetected := true, audioDone := false } now s).1).stateStartTick =
      now := by
  have hc : now - (changeState s ReaderState.STATE_CARD_DETECTED now).stateStartTick
      ≤ RAMP_MS := by
    show now - now ≤ RAMP_MS
    omega
  have hr := runYellowRamp_of_le sdOk (changeState s ReaderState.STATE_CARD_DETECTED now) now hc
  constructor
  · show ((runYellowRamp sdOk (changeState s ReaderState.STATE_CARD_DETECTED now) now).1).state =
      ReaderState.STATE_CARD_DETECTED
    rw [hr]
    rfl
  · show ((runYellowRamp sdOk (changeState s ReaderState.STATE_CARD_DETECTED now) now).1).stateStartTick =
      now
    rw [hr]
    rfl

/-- C3: the claim says every play request raises PlaybackDone exactly once.  At
the failing input below — one play request, audio running at the
post-connecttoFS check but already stopped by the same iteration's completion
check (a track shorter than the volume-ramp window) — the code raises the flag
zero times, for every horizon n: the immediate-failure branch is skipped
because playback had started, and the edge detector misses the session because
wasRunning was still false when playback ended. -/
theorem c3_zero_done_for_short_lived_playback (vol n : Nat) :
    (audioRun (fun i => decide (i = 0)) (fun i => decide (i = 0)) (fun _ => false)
        { wasRunning := false, volume := vol } n).2 = 0 := by
  cases n with
  | zero => rfl
  | succ k =>
      rw [audioRun_short_playback vol k]

/-- C4: if the SD mount failed at boot, transitionToSuccess sends no play
request, returns the machine to Idle with entry timestamp advanced by exactly
the fixed 250 ms confirmation delay, and leaves the strip cleared; and the
audio task, receiving no play request while the decoder is idle, never raises
a PlaybackDone flag. -/
theorem c4_no_sd_success_returns_to_idle :
    (∀ (s : LedState) (now : Nat),
        (transitionToSuccess false s now).2 = false ∧
        ((transitionToSuccess false s now).1).state = ReaderState.STATE_IDLE ∧
        ((transitionToSuccess false s now).1).stateStartTick = now + 250 ∧
        ((transitionToSuccess false s now).1).leds = fill_solid NUM_LEDS CRGB.Black) ∧
    (∀ (r1 : Nat → Bool) (vol n : Nat),
        (audioRun (fun _ => false) r1 (fun _ => false)
            { wasRunning := false, volume := vol } n).2 = 0) := by
  constructor
  · intro s now
    exact ⟨rfl, rfl, rfl, rfl⟩
  · intro r1 vol n
    rw [audioRun_no_request r1 vol n]

/-- C5: the brightness applied during the CardDetected ramp is rampBrightness
of the elapsed time since state entry; rampBrightness is non-decreasing, equals
the integer linear interpolation from MIN_BRIGHTNESS to MAX_BRIGHTNESS inside
the window, and equals MAX_BRIGHTNESS for every elapsed time at least RAMP_MS;
and once the elapsed time exceeds the window the automatic transition to
Success fires (with the SD mounted). -/
theorem c5_ramp_brightness_interpolation :
    (∀ (sdOk : Bool) (s : LedState) (now : Nat),
        ((runYellowRamp sdOk s now).1).brightness = rampBrightness (now - s.stateStartTick)) ∧
    Monotone rampBrightness ∧
    (∀ e, e ≤ RAMP_MS →
        rampBrightness e = MIN_BRIGHTNESS + e * (MAX_BRIGHTNESS - MIN_BRIGHTNESS) / RAMP_MS) ∧
    (∀ e, RAMP_MS ≤ e → rampBrightness e = MAX_BRIGHTNESS) ∧
    (∀ (s : LedState) (now : Nat), RAMP_MS < now - s.stateStartTick →
        ((runYellowRamp true s now).1).state = ReaderState.STATE_SUCCESS) := by
  refine ⟨runYellowRamp_brightness, rampBrightness_mono, rampBrightness_of_le,
    rampBrightness_of_ge, ?_⟩
  intro s now hgt
  rw [runYellowRamp_of_gt true s now hgt]
  rfl

/-- C5 witness: concrete evaluations of the ramp interpolation, the clamp, and
the transition to Success at elapsed time 2500 ms. -/
theorem c5_ramp_brightness_interpolation_witness :
    rampBrightness 1000 = MIN_BRIGHTNESS + 1000 * (MAX_BRIGHTNESS - MIN_BRIGHTNESS) / RAMP_MS ∧
    rampBrightness 2500 = MAX_BRIGHTNESS ∧
    ((runYellowRamp true initLedState 2500).1).state = ReaderState.STATE_SUCCESS :=
  ⟨c5_ramp_brightness_interpolation.2.2.1 1000 (by decide),
    c5_ramp_brightness_interpolation.2.2.2.1 2500 (by decide),
    c5_ramp_brightness_interpolation.2.2.2.2 initLedState 2500 (by decide)⟩

/-- C6: in every state reachable from boot the chaser index lies in
[0, NUM_LEDS-1], and whenever a chaser step executes, the direction inverts
exactly when the advanced index is at least NUM_LEDS-1 or at most 0 — the
boundary pair tested by the source. -/
theorem c6_chaser_index_bounds_and_reflection (version t0 t1 : Nat) (sdOk : Bool)
    (inputs : Nat → Notif × Nat) (n now : Nat) :
    0 ≤ (ledRun sdOk inputs (bootState version t0 t1) n).chaserIndex ∧
    (ledRun sdOk inputs (bootState version t0 t1) n).chaserIndex ≤ (NUM_LEDS : Int) - 1 ∧
    (CHASER_INTERVAL_MS ≤ now - (ledRun sdOk inputs (bootState version t0 t1) n).lastStepTick →
      ((runChaserStep (ledRun sdOk inputs (bootState version t0 t1) n) now).chaserDir =
          -(ledRun sdOk inputs (bootState version t0 t1) n).chaserDir ↔
        ((NUM_LEDS : Int) - 1 ≤ (ledRun sdOk inputs (bootState version t0 t1) n).chaserIndex +
            (ledRun sdOk inputs (bootState version t0 t1) n).chaserDir ∨
          (ledRun sdOk inputs (bootState version t0 t1) n).chaserIndex +
            (ledRun sdOk inputs (bootState version t0 t1) n).chaserDir ≤ 0))) := by
  have h := chaserInv_ledRun sdOk inputs _ (chaserInv_boot version t0 t1) n
  exact ⟨h.1, h.2.1, fun hstep => chaser_reflection _ now h hstep⟩

/-- C6 witness: the reflection characterization evaluated at the boot state and
tick count 120 (the first executed chaser step). -/
theorem c6_chaser_index_bounds_and_reflection_witness :
    ((runChaserStep
        (ledRun true (fun _ => ({ cardDetected := false, audioDone := false }, 0))
          (bootState 1 0 0) 0) 120).chaserDir =
        -(ledRun true (fun _ => ({ cardDetected := false, audioDone := false }, 0))
          (bootState 1 0 0) 0).chaserDir ↔
      ((NUM_LEDS : Int) - 1 ≤
          (ledRun true (fun _ => ({ cardDetected := false, audioDone := false }, 0))
            (bootState 1 0 0) 0).chaserIndex +
            (ledRun true (fun _ => ({ cardDetected := false, audioDone := false }, 0))
              (bootState 1 0 0) 0).chaserDir ∨
        (ledRun true (fun _ => ({ cardDetected := false, audioDone := false }, 0))
            (bootState 1 0 0) 0).chaserIndex +
            (ledRun true (fun _ => ({ cardDetected := false, audioDone := false }, 0))
              (bootState 1 0 0) 0).chaserDir ≤ 0)) :=
  (c6_chaser_index_bounds_and_reflection 1 0 0 true
      (fun _ => ({ cardDetected := false, audioDone := false }, 0)) 0 120).2.2 (by decide)

/-- C7: the sensor task polls (with the 50 ms bounded timeout) exactly when the
observed state is Idle, raises the CardDetected flag exactly on a successful
poll in Idle and then sleeps the 300 ms debounce interval, and outside Idle it
performs no detection attempt and sleeps 80 ms. -/
theorem c7_nfc_polls_only_in_idle (st : ReaderState) (poll : Bool) :
    ((nfcIteration st poll).didPoll = true ↔ st = ReaderState.STATE_IDLE) ∧
    ((nfcIteration st poll).raisedCardDetected = true ↔
      (st = ReaderState.STATE_IDLE ∧ poll = true)) ∧
    ((nfcIteration st poll).didPoll = true → (nfcIteration st poll).pollTimeoutMs = 50) ∧
    ((nfcIteration st poll).raisedCardDetected = true → (nfcIteration st poll).sleepMs = 300) ∧
    ((nfcIteration st poll).didPoll = false → (nfcIteration st poll).sleepMs = 80) := by
  cases st <;> cases poll <;> decide

/-- C7 witness: a successful Idle poll sleeps the 300 ms debounce; outside Idle
the task does not poll and sleeps 80 ms. -/
theorem c7_nfc_polls_only_in_idle_witness :
    (nfcIteration ReaderState.STATE_IDLE true).sleepMs = 300 ∧
    (nfcIteration ReaderState.STATE_SUCCESS true).sleepMs = 80 :=
  ⟨(c7_nfc_polls_only_in_idle ReaderState.STATE_IDLE true).2.2.2.1 rfl,
    (c7_nfc_polls_only_in_idle ReaderState.STATE_SUCCESS true).2.2.2.2 rfl⟩

/-- C8: resetToIdle establishes exactly the claimed post-state: state Idle with
entry timestamp stamped at the current tick, brightness at MAX_BRIGHTNESS, the
whole strip cleared to black, and the chaser reset to index 0, direction +1. -/
theorem c8_reset_to_idle_post_state (s : LedState) (now : Nat) :
    (resetToIdle s now).state = ReaderState.STATE_IDLE ∧
    (resetToIdle s now).brightness = MAX_BRIGHTNESS ∧
    (resetToIdle s now).leds = fill_solid NUM_LEDS CRGB.Black ∧
    (resetToIdle s now).chaserIndex = 0 ∧
    (resetToIdle s now).chaserDir = 1 ∧
    (resetToIdle s now).stateStartTick = now :=
  ⟨rfl, rfl, rfl, rfl, rfl, rfl⟩

/-- C9: in every state reachable from boot, being in STATE_SUCCESS implies the
SD mounted successfully: the storage-unavailable branch of transitionToSuccess
resets to Idle without ever assigning STATE_SUCCESS. -/
theorem c9_success_implies_sd_ok (version t0 t1 : Nat) (sdOk : Bool)
    (inputs : Nat → Notif × Nat) (n : Nat)
    (h : (ledRun sdOk inputs (bootState version t0 t1) n).state = ReaderState.STATE_SUCCESS) :
    sdOk = true := by
  cases sdOk with
  | true => rfl
  | false =>
      exact absurd h
        (ledRun_not_success inputs (bootState version t0 t1)
          (fun hcon => ReaderState.noConfusion hcon) n)

/-- C9 witness: with the SD mounted, STATE_SUCCESS is reached after two ticks of
the concrete reach-Success environment, and the theorem applies. -/
theorem c9_success_implies_sd_ok_witness :
    (ledRun true reachSuccessInputs (bootState 1 0 0) 2).state = ReaderState.STATE_SUCCESS ∧
    true = true :=
  ⟨by decide, c9_success_implies_sd_ok 1 0 0 true reachSuccessInputs 2 (by decide)⟩

/-- C10: a drained PlaybackDone flag performs the full reset-to-idle operation
from every state: the drain phase is literally resetToIdle of the
(possibly card-flag-updated) state, and the whole tick ends in STATE_IDLE —
in particular a stray PlaybackDone during the CardDetected ramp aborts the
ramp back to Idle. -/
theorem c10_audio_done_resets_from_any_state (sdOk c : Bool) (s : LedState) (now : Nat) :
    drainNotif { cardDetected := c, audioDone := true } s now =
      resetToIdle (if c then changeState s ReaderState.STATE_CARD_DETECTED now else s) now ∧
    ((ledTick sdOk { cardDetected := c, audioDone := true } now s).1).state =
      ReaderState.STATE_IDLE := by
  constructor
  · cases c <;> rfl
  · cases c <;> exact runChaserStep_state _ _

end NFCReader
